import Mathlib

/-!
Verification development for the genbackend generation pipeline.

Shallow embedding of the core pipeline components:
* `generateOpenAPISpec` / `addEndpointToSpec` (src/generator/openApiGenerator.ts)
* the decode phase of `parsePrompt` (src/generator/promptParser.ts)
* `renderDocumentation` (src/generator/documentationGenerator.ts)
* `updateGeneratedBackend` (src/server.ts)

JavaScript objects used as string-keyed maps are embedded as association
lists with in-place-update insertion (`alistInsert`), matching JS object
assignment semantics (existing key keeps its position, new key is appended).
JavaScript string methods are embedded as character-list operations so that
every definition evaluates by kernel reduction.
-/

/-- JavaScript `s.startsWith(p)`: prefix test on the character sequence. -/
def jsStartsWith (s p : String) : Bool :=
  p.data.isPrefixOf s.data

/-- JavaScript `s.substring(n)`: drop the first `n` characters. -/
def jsSubstringFrom (s : String) (n : Nat) : String :=
  ⟨s.data.drop n⟩

/-- JavaScript `s.toLowerCase()` restricted to the ASCII range, which covers
every method string this pipeline handles. -/
def jsToLowerCase (s : String) : String :=
  ⟨s.data.map Char.toLower⟩

/-- JavaScript `s.trim()`: strip whitespace from both ends. -/
def jsTrim (s : String) : String :=
  ⟨((s.data.dropWhile Char.isWhitespace).reverse.dropWhile Char.isWhitespace).reverse⟩

/-- Minimal JSON value type, used for untyped payloads (`JSON.parse` results
and response schemas). Numbers are embedded as integers, which suffices for
every value this pipeline inspects. -/
inductive Json where
  | null : Json
  | bool (b : Bool) : Json
  | num (n : Int) : Json
  | str (s : String) : Json
  | arr (items : List Json) : Json
  | obj (fields : List (String × Json)) : Json
deriving Repr

/-- JavaScript truthiness of a JSON value. -/
def Json.truthy : Json → Bool
  | .null => false
  | .bool b => b
  | .num n => n != 0
  | .str s => s != ""
  | .arr _ => true
  | .obj _ => true

/-- Property access `j.key`: returns the first binding in an object, and
`undefined` (here `none`) on a missing key or a non-object. -/
def Json.getField : Json → String → Option Json
  | .obj fields, key => fields.lookup key
  | _, _ => none

/-- Truthiness of a possibly-`undefined` JavaScript value. -/
def jsTruthy : Option Json → Bool
  | none => false
  | some j => j.truthy

/-- The `Array.isArray` test, `false` on `undefined`. -/
def jsIsArray : Option Json → Bool
  | some (.arr _) => true
  | _ => false

/-- Parameter of a generated endpoint (src/types/index.ts, `EndpointParameter`).
The `in` field is one of "path" | "query" | "body" | "header". -/
structure EndpointParameter where
  name : String
  «in» : String
  required : Bool
  type : String
  description : String
deriving Repr, DecidableEq

/-- Response of a generated endpoint (src/types/index.ts, `EndpointResponse`). -/
structure EndpointResponse where
  status : Nat
  description : String
  schema : Option Json
deriving Repr

/-- Generated API endpoint (src/types/index.ts, `GeneratedEndpoint`).
Optional TS fields are embedded as `Option`. -/
structure GeneratedEndpoint where
  path : String
  method : String
  description : String
  parameters : Option (List EndpointParameter)
  responses : Option (List EndpointResponse)
deriving Repr

/-- Generated node (src/types/index.ts, `GeneratedNode`). -/
structure GeneratedNode where
  name : String
  type : String
  code : String
  filepath : String
deriving Repr, DecidableEq

/-- Generated workflow (src/types/index.ts, `GeneratedWorkflow`). The
`steps` field has the external library type `Step | undefined`; the pipeline
never inspects its contents, so it is embedded opaquely. -/
structure GeneratedWorkflow where
  name : String
  description : String
  steps : Option Unit
  filepath : String
  endpoints : List GeneratedEndpoint
deriving Repr

/-- Overall structure of a generated backend (src/types/index.ts,
`GeneratedBackend`). -/
structure GeneratedBackend where
  name : String
  description : String
  version : String
  nodes : List GeneratedNode
  workflows : List GeneratedWorkflow
  endpoints : List GeneratedEndpoint
deriving Repr

/-- Configuration for the generator (src/types/index.ts, `GeneratorConfig`). -/
structure GeneratorConfig where
  openaiApiKey : Option String
  model : Option String
  outputDir : Option String
  verbose : Option Bool
deriving Repr, DecidableEq

/-- Result of the AI text-generation step (src/types/index.ts,
`GenerationResult`). The `data` field is declared as `GeneratedBackend` in
TS but at runtime carries the raw `JSON.parse` output, so it is embedded as
a JSON value. -/
structure GenerationResult where
  success : Bool
  error : Option String
  data : Option Json
deriving Repr

/-- Association-list insertion with JavaScript object-assignment semantics:
an existing key is overwritten in place, a new key is appended at the end. -/
def alistInsert {α : Type} : List (String × α) → String → α → List (String × α)
  | [], k, v => [(k, v)]
  | (k', v') :: t, k, v =>
    if k' == k then (k, v) :: t else (k', v') :: alistInsert t k v

/-- Repeated JS object assignment `acc[key x] = val x` over a list, as
performed by the response loop of `addEndpointToSpec`. -/
def alistFold {α β : Type} (key : β → String) (val : β → α)
    (init : List (String × α)) (xs : List β) : List (String × α) :=
  xs.foldl (fun acc x => alistInsert acc (key x) (val x)) init

/-- Converted OpenAPI parameter object produced by `convertParameter`
(src/generator/openApiGenerator.ts): body parameters carry no schema field,
regular parameters carry a schema holding their type. -/
structure ConvertedParam where
  name : String
  «in» : String
  description : String
  required : Bool
  schema : Option String
deriving Repr, DecidableEq

/-- Request-body descriptor built for body parameters
(src/generator/openApiGenerator.ts lines 90-103). The `content` field of the
source is the constant `application/json` empty-object schema and carries no
endpoint-dependent data, so only `description` and `required` are embedded. -/
structure RequestBody where
  description : String
  required : Bool
deriving Repr, DecidableEq

/-- Converted OpenAPI response object produced by `convertResponse`
(src/generator/openApiGenerator.ts lines 155-169): `content` is present
exactly when the endpoint response carries a schema. -/
structure ResponseObj where
  description : String
  content : Option Json
deriving Repr

/-- One OpenAPI operation object as built by `addEndpointToSpec`
(src/generator/openApiGenerator.ts lines 77-120). The `responses` object is
keyed by status-code string. -/
structure Operation where
  summary : String
  description : String
  parameters : Option (List ConvertedParam)
  requestBody : Option RequestBody
  responses : List (String × ResponseObj)
deriving Repr

/-- A path item: JS object keyed by lower-cased method. -/
abbrev PathItem : Type := List (String × Operation)

/-- The paths object: keyed by normalized path, then by method. -/
abbrev Paths : Type := List (String × PathItem)

/-- Info block of the specification. -/
structure SpecInfo where
  title : String
  description : String
  version : String
deriving Repr, DecidableEq

/-- Simplified OpenAPI specification (src/types/index.ts, `OpenAPISpec`).
`components.schemas` is created empty and never populated; it is embedded as
an optional association list. -/
structure OpenAPISpec where
  openapi : String
  info : SpecInfo
  servers : List String
  paths : Paths
  components : Option (List (String × Json))
deriving Repr

/-- Path normalization of `addEndpointToSpec`
(src/generator/openApiGenerator.ts lines 57-66): drop the first four
characters whenever the path starts with the string "/api", then prepend "/"
if the result does not start with "/". -/
def normalizePath (path : String) : String :=
  let p := if jsStartsWith path "/api" then jsSubstringFrom path 4 else path
  if jsStartsWith p "/" then p else "/" ++ p

/-- Embedding of `convertParameter` (src/generator/openApiGenerator.ts
lines 129-150). -/
def convertParameter (param : EndpointParameter) : ConvertedParam :=
  if param.«in» == "body" then
    { name := param.name, «in» := param.«in», description := param.description,
      required := param.required, schema := none }
  else
    { name := param.name, «in» := param.«in», description := param.description,
      required := param.required, schema := some param.type }

/-- Embedding of `convertResponse` (src/generator/openApiGenerator.ts
lines 155-169). -/
def convertResponse (response : EndpointResponse) : ResponseObj :=
  { description := response.description, content := response.schema }

/-- Builds the `responses` object of an operation
(src/generator/openApiGenerator.ts lines 110-120): each supplied response is
assigned under its status-code string (later assignments to the same status
overwrite), and a default `200` entry is used when the endpoint supplies no
responses. -/
def mkResponses (endpoint : GeneratedEndpoint) : List (String × ResponseObj) :=
  match endpoint.responses with
  | some rs =>
    if rs.length > 0 then
      rs.foldl (fun acc r => alistInsert acc (toString r.status) (convertResponse r)) []
    else [("200", { description := "Successful operation", content := none })]
  | none => [("200", { description := "Successful operation", content := none })]

/-- Builds the operation object of `addEndpointToSpec`
(src/generator/openApiGenerator.ts lines 77-120): parameters are converted
and, when at least one parameter is located at "body", a request body is
built from the FIRST body parameter and body parameters are filtered out of
the parameters array. -/
def mkOperation (endpoint : GeneratedEndpoint) : Operation :=
  let ps := endpoint.parameters.getD []
  let mapped := ps.map convertParameter
  let bodyParams := ps.filter (fun p => p.«in» == "body")
  let pr : Option (List ConvertedParam) × Option RequestBody :=
    if ps.length > 0 then
      match bodyParams with
      | b :: _ =>
        (some (mapped.filter (fun q => q.«in» != "body")),
         some { description := b.description, required := b.required })
      | [] => (some mapped, none)
    else (none, none)
  { summary := endpoint.description
    description := endpoint.description
    parameters := pr.1
    requestBody := pr.2
    responses := mkResponses endpoint }

/-- Embedding of `addEndpointToSpec` (src/generator/openApiGenerator.ts
lines 56-124). The source mutates `spec.paths`; here the paths object is
passed and returned explicitly. -/
def addEndpointToSpec (paths : Paths) (endpoint : GeneratedEndpoint) : Paths :=
  let path := normalizePath endpoint.path
  let method := jsToLowerCase endpoint.method
  let pathItem : PathItem := (List.lookup path paths).getD []
  alistInsert paths path (alistInsert pathItem method (mkOperation endpoint))

/-- The paths object built by the endpoint loop of `generateOpenAPISpec`
(src/generator/openApiGenerator.ts lines 31-33). -/
def genPaths (endpoints : List GeneratedEndpoint) : Paths :=
  endpoints.foldl addEndpointToSpec []

/-- Embedding of `generateOpenAPISpec` (src/generator/openApiGenerator.ts
lines 7-51). The try body contains no throwing operation once typed inputs
are assumed, so the catch branch (minimal fallback spec) is unreachable in
this embedding and the function is total by construction. -/
def generateOpenAPISpec (backend : GeneratedBackend) : OpenAPISpec :=
  { openapi := "3.0.0"
    info := { title := backend.name, description := backend.description,
              version := backend.version }
    servers := ["/api"]
    paths := genPaths backend.endpoints
    components := some [] }

/-- Lookup of an operation in a paths object by path key and method key. -/
def pathsLookup (paths : Paths) (path method : String) : Option Operation :=
  (List.lookup path paths).bind (fun item => List.lookup method item)

/-- Path normalization as worded by the specification: strip a leading
"/api" path SEGMENT if present (the path is exactly "/api" or continues
with "/"), then ensure the result starts with "/". Declared solely to
compare the spec's wording with `normalizePath`, which strips the
four-character prefix "/api" regardless of segment boundaries. -/
def specNormalizePath (path : String) : String :=
  let p :=
    if path == "/api" || jsStartsWith path "/api/" then jsSubstringFrom path 4
    else path
  if jsStartsWith p "/" then p else "/" ++ p

/-- Decode phase of `parsePrompt` (src/generator/promptParser.ts lines
109-136), taking the outcome of `JSON.parse` on the completion content as
input (`none` embeds a JSON parse exception). The shape check mirrors the
source condition `!parsedData.name || !parsedData.workflows ||
!Array.isArray(parsedData.workflows)`. -/
def decodeReply (parsed : Option Json) : GenerationResult :=
  match parsed with
  | none =>
    { success := false, error := some "Failed to parse OpenAI response as JSON",
      data := none }
  | some parsedData =>
    if !jsTruthy (parsedData.getField "name")
        || !jsTruthy (parsedData.getField "workflows")
        || !jsIsArray (parsedData.getField "workflows") then
      { success := false, error := some "Invalid data format in OpenAI response",
        data := none }
    else
      { success := true, error := none, data := some parsedData }

/-- Result returned when the completion has no content
(src/generator/promptParser.ts lines 101-106); the spec files this under
service-unavailability (`UpstreamError`, empty completion). -/
def noContentResult : GenerationResult :=
  { success := false, error := some "No content in OpenAI response", data := none }

/-- Result of the upstream catch-all of `parsePrompt`
(src/generator/promptParser.ts lines 137-143): a thrown error (network or
service failure) is reported with its message. -/
def upstreamFailureResult (message : String) : GenerationResult :=
  { success := false, error := some message, data := none }

/-- What `parsePrompt` does before its outbound call
(src/generator/promptParser.ts lines 13-31): `earlyReturn` embeds a
`return` executed before the OpenAI client is constructed and before any
request is issued; `callService` embeds reaching the client construction
and the subsequent network call. -/
inductive ParsePhase where
  | earlyReturn (result : GenerationResult) : ParsePhase
  | callService (apiKey : String) : ParsePhase
deriving Repr

/-- Guard phase of `parsePrompt` (src/generator/promptParser.ts lines
13-31): an empty (or all-whitespace) prompt and a missing or empty
`openaiApiKey` each return a failure before the client is constructed. -/
def parsePromptStart (prompt : String) (config : GeneratorConfig) : ParsePhase :=
  if prompt == "" || (jsTrim prompt).length == 0 then
    .earlyReturn { success := false, error := some "Empty prompt provided", data := none }
  else if !(match config.openaiApiKey with | none => false | some k => k != "") then
    .earlyReturn { success := false, error := some "OpenAI API key is required", data := none }
  else
    .callService (config.openaiApiKey.getD "")

/-- Tests that the guard phase returned a failure result synchronously,
before the client construction and the outbound call. -/
def isEarlyFailure : ParsePhase → Bool
  | .earlyReturn r => !r.success
  | .callService _ => false

/-- Opening of the fallback HTML page built in the catch branch of
`renderDocumentation` (src/generator/documentationGenerator.ts lines
44-63), up to the point where the failure message is interpolated. -/
def errorPagePre : String :=
  "\n      <!DOCTYPE html>\n      <html>\n        <head>\n          <title>Error - API Documentation</title>\n          <style>\n            body \x7b font-family: Arial, sans-serif; margin: 40px; line-height: 1.6; \x7d\n            .error \x7b color: red; border: 1px solid red; padding: 20px; border-radius: 5px; \x7d\n          </style>\n        </head>\n        <body>\n          <h1>Error Generating Documentation</h1>\n          <div class=\"error\">\n            <p>There was an error generating the documentation:</p>\n            <p>"

/-- Closing of the fallback HTML page of `renderDocumentation`, after the
interpolated failure message. -/
def errorPagePost : String :=
  "</p>\n          </div>\n          <p>Please check the server logs for more information.</p>\n        </body>\n      </html>\n    "

/-- Outcome of the try body of `renderDocumentation`
(src/generator/documentationGenerator.ts lines 10-39): either the rendered
HTML, or a raised failure (template read error, template syntax error,
null-field access) carrying `some message` when the thrown value is an
`Error` and `none` otherwise. -/
inductive RenderAttempt where
  | ok (html : String) : RenderAttempt
  | thrown (errMessage : Option String) : RenderAttempt
deriving Repr

/-- Embedding of `renderDocumentation`
(src/generator/documentationGenerator.ts lines 10-65): the catch branch
converts any raised failure into the self-contained fallback page, using
"Unknown error" when the thrown value is not an `Error`. The function is
total: every attempt yields an HTML string. -/
def renderDocumentation (attempt : RenderAttempt) : String :=
  match attempt with
  | .ok html => html
  | .thrown errMessage =>
    errorPagePre ++ errMessage.getD "Unknown error" ++ errorPagePost

/-- Process-wide state touched by `updateGeneratedBackend` (src/server.ts):
the in-memory `generatedBackend` variable and the contents of the
persistence file `src/generator/generated-backend.json`. -/
structure ServerState where
  generatedBackend : Option GeneratedBackend
  persistedFile : Option GeneratedBackend
deriving Repr

/-- Embedding of `updateGeneratedBackend` (src/server.ts lines 684-702):
the new backend is assigned to the module-level variable first; the
subsequent file write is wrapped in try/catch whose catch only logs, so a
failed write (`writeOk = false`) leaves the file untouched while the
in-memory assignment stands. -/
def updateGeneratedBackend (backend : GeneratedBackend) (writeOk : Bool)
    (s : ServerState) : ServerState :=
  let s' := { s with generatedBackend := some backend }
  if writeOk then { s' with persistedFile := some backend } else s'

/-- Endpoint whose path starts with the characters "/api" without "/api"
being a whole path segment. -/
def apisEndpoint : GeneratedEndpoint :=
  { path := "/apis", method := "GET", description := "list"
    parameters := none, responses := none }

/-- Backend exposing only `apisEndpoint`. -/
def apisBackend : GeneratedBackend :=
  { name := "svc", description := "demo", version := "0.1.0"
    nodes := [], workflows := [], endpoints := [apisEndpoint] }

/-- Endpoint with two body parameters (different descriptions and required
flags) and one query parameter. -/
def twoBodyEndpoint : GeneratedEndpoint :=
  { path := "/tasks", method := "POST", description := "create"
    parameters := some
      [{ name := "verbose", «in» := "query", required := false,
         type := "boolean", description := "verbosity" },
       { name := "task", «in» := "body", required := true,
         type := "object", description := "first body" },
       { name := "extra", «in» := "body", required := false,
         type := "object", description := "second body" }]
    responses := none }

/-- First of two endpoints sharing normalized path and lower-cased method. -/
def dupMethodEndpointA : GeneratedEndpoint :=
  { path := "/x", method := "GET", description := "first"
    parameters := none, responses := none }

/-- Second endpoint, method differing only in case, different description. -/
def dupMethodEndpointB : GeneratedEndpoint :=
  { path := "/x", method := "get", description := "second"
    parameters := none, responses := none }

/-- Backend whose endpoint sequence repeats path "/x" with the same
method up to case. -/
def dupMethodBackend : GeneratedBackend :=
  { name := "dup", description := "demo", version := "0.1.0"
    nodes := [], workflows := [], endpoints := [dupMethodEndpointA, dupMethodEndpointB] }

/-- Backend with zero endpoints. -/
def emptyBackend : GeneratedBackend :=
  { name := "empty", description := "demo", version := "0.1.0"
    nodes := [], workflows := [], endpoints := [] }

/-- Reply object carrying no "name" key at all. -/
def namelessReply : Json := Json.obj []

/-- Configuration with no credential for the text-generation service. -/
def keylessConfig : GeneratorConfig :=
  { openaiApiKey := none, model := none, outputDir := none, verbose := none }

/-- Endpoint supplying two responses with the same status code and
different descriptions. -/
def dupStatusEndpoint : GeneratedEndpoint :=
  { path := "/y", method := "GET", description := "list"
    parameters := none
    responses := some
      [{ status := 200, description := "first", schema := none },
       { status := 200, description := "second", schema := none }] }

/-- Endpoint supplying two responses with distinct status codes. -/
def twoStatusEndpoint : GeneratedEndpoint :=
  { path := "/y", method := "GET", description := "list"
    parameters := none
    responses := some
      [{ status := 200, description := "ok", schema := none },
       { status := 404, description := "missing", schema := none }] }

/-- Endpoint supplying no responses at all. -/
def noResponsesEndpoint : GeneratedEndpoint :=
  { path := "/z", method := "GET", description := "list"
    parameters := none, responses := none }

/-- Reply object holding only a truthy "name" and an (empty) "workflows"
array: exactly the keys the decode shape check requires. -/
def minimalReply : Json :=
  Json.obj [("name", Json.str "movie-api"), ("workflows", Json.arr [])]

example : normalizePath "/api/tasks" = "/tasks" := by decide
example : normalizePath "tasks" = "/tasks" := by decide
example : normalizePath "/apis" = "/s" := by decide
example : normalizePath "/api" = "/" := by decide
example : specNormalizePath "/apis" = "/apis" := by decide
example : jsToLowerCase "GET" = "get" := by decide
example : jsTrim "  " = "" := by decide
example : toString (200 : Nat) = "200" := by decide

section AlistLemmas

variable {α : Type}

theorem lookup_alistInsert_self (l : List (String × α)) (k : String) (v : α) :
    List.lookup k (alistInsert l k v) = some v := by
  induction l with
  | nil => simp [alistInsert, List.lookup]
  | cons hd t ih =>
    obtain ⟨a, b⟩ := hd
    by_cases ha : a = k
    · subst ha
      simp [alistInsert, List.lookup]
    · have h1 : (a == k) = false := beq_eq_false_iff_ne.mpr ha
      have h2 : (k == a) = false := beq_eq_false_iff_ne.mpr (Ne.symm ha)
      simp [alistInsert, List.lookup, h1, h2, ih]

theorem lookup_alistInsert_ne (l : List (String × α)) (k k' : String) (v : α)
    (h : k' ≠ k) :
    List.lookup k' (alistInsert l k v) = List.lookup k' l := by
  induction l with
  | nil =>
    simp [alistInsert, List.lookup, beq_eq_false_iff_ne.mpr h]
  | cons hd t ih =>
    obtain ⟨a, b⟩ := hd
    by_cases ha : a = k
    · subst ha
      simp [alistInsert, List.lookup, beq_eq_false_iff_ne.mpr h]
    · have h1 : (a == k) = false := beq_eq_false_iff_ne.mpr ha
      by_cases hb : k' = a
      · subst hb
        simp [alistInsert, List.lookup, h1]
      · have h2 : (k' == a) = false := beq_eq_false_iff_ne.mpr hb
        simp [alistInsert, List.lookup, h1, h2, ih]

theorem lookup_isSome_alistInsert (l : List (String × α)) (k' : String) (v : α)
    (k : String) (h : (List.lookup k l).isSome = true) :
    (List.lookup k (alistInsert l k' v)).isSome = true := by
  by_cases hk : k = k'
  · subst hk
    simp [lookup_alistInsert_self]
  · rw [lookup_alistInsert_ne l k' k v hk]
    exact h

theorem mem_alistInsert_self (l : List (String × α)) (k : String) (v : α) :
    (k, v) ∈ alistInsert l k v := by
  induction l with
  | nil => simp [alistInsert]
  | cons hd t ih =>
    obtain ⟨a, b⟩ := hd
    by_cases ha : a = k
    · subst ha
      simp [alistInsert]
    · have h1 : (a == k) = false := beq_eq_false_iff_ne.mpr ha
      simp only [alistInsert, h1, Bool.false_eq_true, if_false]
      exact List.mem_cons_of_mem _ ih

theorem mem_alistInsert_of_ne (l : List (String × α)) (k : String) (v : α)
    (k' : String) (v' : α) (h : (k, v) ∈ l) (hne : k ≠ k') :
    (k, v) ∈ alistInsert l k' v' := by
  induction l with
  | nil => cases h
  | cons hd t ih =>
    obtain ⟨a, b⟩ := hd
    by_cases ha : a = k'
    · subst ha
      simp only [alistInsert, beq_self_eq_true, if_true]
      rcases List.mem_cons.mp h with heq | ht
      · exact absurd (congrArg Prod.fst heq) hne
      · exact List.mem_cons_of_mem _ ht
    · have h1 : (a == k') = false := beq_eq_false_iff_ne.mpr ha
      simp only [alistInsert, h1, Bool.false_eq_true, if_false]
      rcases List.mem_cons.mp h with heq | ht
      · exact heq ▸ List.mem_cons_self _ _
      · exact List.mem_cons_of_mem _ (ih ht)

theorem mem_alistInsert_elim (l : List (String × α)) (k' : String) (v' : α)
    (k : String) (v : α) (h : (k, v) ∈ alistInsert l k' v') :
    (k, v) ∈ l ∨ k = k' := by
  induction l with
  | nil =>
    simp [alistInsert] at h
    exact Or.inr h.1
  | cons hd t ih =>
    obtain ⟨a, b⟩ := hd
    by_cases ha : a = k'
    · subst ha
      simp only [alistInsert, beq_self_eq_true, if_true] at h
      rcases List.mem_cons.mp h with heq | ht
      · exact Or.inr (congrArg Prod.fst heq)
      · exact Or.inl (List.mem_cons_of_mem _ ht)
    · have h1 : (a == k') = false := beq_eq_false_iff_ne.mpr ha
      simp only [alistInsert, h1, Bool.false_eq_true, if_false] at h
      rcases List.mem_cons.mp h with heq | ht
      · exact Or.inl (heq ▸ List.mem_cons_self _ _)
      · rcases ih ht with h2 | h2
        · exact Or.inl (List.mem_cons_of_mem _ h2)
        · exact Or.inr h2

end AlistLemmas

section FoldLemmas

variable {α β : Type}

theorem lookup_isSome_alistFold (key : β → String) (val : β → α) (xs : List β)
    (init : List (String × α)) (k : String)
    (h : (List.lookup k init).isSome = true) :
    (List.lookup k (alistFold key val init xs)).isSome = true := by
  induction xs generalizing init with
  | nil => exact h
  | cons a t ih =>
    exact ih (alistInsert init (key a) (val a))
      (lookup_isSome_alistInsert init (key a) (val a) k h)

theorem lookup_isSome_alistFold_mem (key : β → String) (val : β → α)
    (xs : List β) (init : List (String × α)) (x : β) (hx : x ∈ xs) :
    (List.lookup (key x) (alistFold key val init xs)).isSome = true := by
  induction xs generalizing init with
  | nil => cases hx
  | cons a t ih =>
    rcases List.mem_cons.mp hx with heq | ht
    · subst heq
      exact lookup_isSome_alistFold key val t _ (key x)
        (by simp [lookup_alistInsert_self])
    · exact ih _ ht

theorem mem_alistFold_of_fresh (key : β → String) (val : β → α) (xs : List β)
    (init : List (String × α)) (k : String) (v : α) (h : (k, v) ∈ init)
    (hk : ∀ x ∈ xs, key x ≠ k) :
    (k, v) ∈ alistFold key val init xs := by
  induction xs generalizing init with
  | nil => exact h
  | cons a t ih =>
    refine ih _ ?_ (fun x hx => hk x (List.mem_cons_of_mem _ hx))
    exact mem_alistInsert_of_ne init k v (key a) (val a) h
      (fun hkk => hk a (List.mem_cons_self _ _) hkk.symm)

theorem mem_alistFold_of_nodup (key : β → String) (val : β → α) (xs : List β)
    (init : List (String × α)) (x : β) (hx : x ∈ xs)
    (hnd : (xs.map key).Nodup) :
    (key x, val x) ∈ alistFold key val init xs := by
  induction xs generalizing init with
  | nil => cases hx
  | cons a t ih =>
    rcases List.mem_cons.mp hx with heq | ht
    · subst heq
      refine mem_alistFold_of_fresh key val t _ (key x) (val x)
        (mem_alistInsert_self init (key x) (val x)) ?_
      intro y hy hyk
      have : key x ∉ t.map key := (List.nodup_cons.mp hnd).1
      exact this (hyk ▸ List.mem_map_of_mem key hy)
    · exact ih _ ht (List.nodup_cons.mp hnd).2

theorem mem_alistFold_elim (key : β → String) (val : β → α) (xs : List β)
    (init : List (String × α)) (k : String) (v : α)
    (h : (k, v) ∈ alistFold key val init xs) :
    (k, v) ∈ init ∨ k ∈ xs.map key := by
  induction xs generalizing init with
  | nil => exact Or.inl h
  | cons a t ih =>
    rcases ih _ h with h1 | h1
    · rcases mem_alistInsert_elim init (key a) (val a) k v h1 with h2 | h2
      · exact Or.inl h2
      · exact Or.inr (by simp [h2])
    · exact Or.inr (List.mem_cons_of_mem _ h1)

end FoldLemmas

section PathsLemmas

theorem pathsLookup_addEndpoint_self (paths : Paths) (e : GeneratedEndpoint) :
    pathsLookup (addEndpointToSpec paths e) (normalizePath e.path)
      (jsToLowerCase e.method) = some (mkOperation e) := by
  unfold addEndpointToSpec pathsLookup
  rw [lookup_alistInsert_self]
  simp [lookup_alistInsert_self]

theorem pathsLookup_addEndpoint_other (paths : Paths) (e : GeneratedEndpoint)
    (p m : String)
    (h : ¬(p = normalizePath e.path ∧ m = jsToLowerCase e.method)) :
    pathsLookup (addEndpointToSpec paths e) p m = pathsLookup paths p m := by
  by_cases hp : p = normalizePath e.path
  · have hm : m ≠ jsToLowerCase e.method := fun hm => h ⟨hp, hm⟩
    subst hp
    unfold addEndpointToSpec pathsLookup
    rw [lookup_alistInsert_self]
    cases hcase : List.lookup (normalizePath e.path) paths with
    | none =>
      simp [hcase, List.lookup, beq_eq_false_iff_ne.mpr hm]
    | some item =>
      simp [hcase, lookup_alistInsert_ne _ _ _ _ hm]
  · unfold addEndpointToSpec pathsLookup
    rw [lookup_alistInsert_ne _ _ _ _ hp]

theorem genPaths_append (es : List GeneratedEndpoint) (e : GeneratedEndpoint) :
    genPaths (es ++ [e]) = addEndpointToSpec (genPaths es) e := by
  simp [genPaths, List.foldl_append]

theorem lookup_isSome_addEndpoint (paths : Paths) (e : GeneratedEndpoint)
    (k : String) (h : (List.lookup k paths).isSome = true) :
    (List.lookup k (addEndpointToSpec paths e)).isSome = true := by
  unfold addEndpointToSpec
  exact lookup_isSome_alistInsert _ _ _ _ h

theorem lookup_isSome_foldAdd (es : List GeneratedEndpoint) (init : Paths)
    (k : String) (h : (List.lookup k init).isSome = true) :
    (List.lookup k (es.foldl addEndpointToSpec init)).isSome = true := by
  induction es generalizing init with
  | nil => exact h
  | cons a t ih => exact ih _ (lookup_isSome_addEndpoint _ _ _ h)

theorem genPaths_key_present (es : List GeneratedEndpoint)
    (e : GeneratedEndpoint) (h : e ∈ es) :
    (List.lookup (normalizePath e.path) (genPaths es)).isSome = true := by
  have main : ∀ (t : List GeneratedEndpoint) (init : Paths), e ∈ t →
      (List.lookup (normalizePath e.path) (t.foldl addEndpointToSpec init)).isSome = true := by
    intro t
    induction t with
    | nil => intro init hx; cases hx
    | cons a u ih =>
      intro init hx
      rcases List.mem_cons.mp hx with heq | ht
      · subst heq
        refine lookup_isSome_foldAdd u _ _ ?_
        unfold addEndpointToSpec
        simp [lookup_alistInsert_self]
      · exact ih _ ht
  exact main es [] h

end PathsLemmas

section ResponsesLemmas

theorem mkResponses_some (e : GeneratedEndpoint) (rs : List EndpointResponse)
    (hrs : e.responses = some rs) (hne : rs ≠ []) :
    mkResponses e
      = alistFold (fun x => toString x.status) convertResponse [] rs := by
  simp only [mkResponses, hrs]
  rw [if_pos (show rs.length > 0 from List.length_pos.mpr hne)]
  rfl

theorem mkOperation_responses_eq (e : GeneratedEndpoint) :
    (mkOperation e).responses = mkResponses e := rfl

end ResponsesLemmas

/-- Claim C2: for every endpoint whose parameters contain at least one
parameter located at "body" (the filter of body-located parameters is
`b :: rest`, so `b` is the first such parameter in order), the operation's
request body takes its description and required flag from `b`
(first-one-wins), and no parameter located at "body" remains in the
operation's parameters array. -/
theorem requestBody_first_body_param (e : GeneratedEndpoint)
    (ps rest : List EndpointParameter) (b : EndpointParameter)
    (q : ConvertedParam)
    (hps : e.parameters = some ps)
    (hb : ps.filter (fun p => p.«in» == "body") = b :: rest)
    (hq : q ∈ (mkOperation e).parameters.getD []) :
    (mkOperation e).requestBody
        = some { description := b.description, required := b.required }
    ∧ q.«in» ≠ "body" := by
  have hlen : 0 < ps.length := by
    cases ps with
    | nil => simp at hb
    | cons x t => simp
  have hfields : (mkOperation e).requestBody
        = some { description := b.description, required := b.required }
      ∧ (mkOperation e).parameters
        = some ((ps.map convertParameter).filter (fun p => p.«in» != "body")) := by
    constructor <;> simp [mkOperation, hps, hb, hlen]
  refine ⟨hfields.1, ?_⟩
  rw [hfields.2] at hq
  simp only [Option.getD_some] at hq
  exact bne_iff_ne.mp (List.mem_filter.mp hq).2

/-- Claim C2 witness: instantiated at an endpoint with one query parameter
followed by two body parameters; the request body comes from the first body
parameter and the surviving converted query parameter is not body-located. -/
theorem requestBody_first_body_param_witness :
    (mkOperation twoBodyEndpoint).requestBody
        = some { description := "first body", required := true }
    ∧ ({ name := "verbose", «in» := "query", description := "verbosity",
         required := false, schema := some "boolean" } : ConvertedParam).«in» ≠ "body" :=
  requestBody_first_body_param twoBodyEndpoint
    [{ name := "verbose", «in» := "query", required := false,
       type := "boolean", description := "verbosity" },
     { name := "task", «in» := "body", required := true,
       type := "object", description := "first body" },
     { name := "extra", «in» := "body", required := false,
       type := "object", description := "second body" }]
    [{ name := "extra", «in» := "body", required := false,
       type := "object", description := "second body" }]
    { name := "task", «in» := "body", required := true,
      type := "object", description := "first body" }
    { name := "verbose", «in» := "query", description := "verbosity",
      required := false, schema := some "boolean" }
    rfl (by decide) (by decide)

/-- Claim C3: the specification's paths object is keyed by normalized path
and lower-cased method; for a backend whose endpoint sequence ends with
`e`, the operation stored under `e`'s keys is `e`'s operation (a later
endpoint with the same normalized path and lower-cased method overwrites an
earlier one, last-write-wins, without error), while every other path/method
key pair keeps exactly the value accumulated from the earlier endpoints. -/
theorem spec_paths_merge_policy (b : GeneratedBackend)
    (es : List GeneratedEndpoint) (e : GeneratedEndpoint) (p m : String)
    (h : b.endpoints = es ++ [e])
    (h2 : ¬(p = normalizePath e.path ∧ m = jsToLowerCase e.method)) :
    pathsLookup (generateOpenAPISpec b).paths (normalizePath e.path)
        (jsToLowerCase e.method) = some (mkOperation e)
    ∧ pathsLookup (generateOpenAPISpec b).paths p m
        = pathsLookup (genPaths es) p m := by
  have hpaths : (generateOpenAPISpec b).paths = addEndpointToSpec (genPaths es) e := by
    show genPaths b.endpoints = _
    rw [h, genPaths_append]
  rw [hpaths]
  exact ⟨pathsLookup_addEndpoint_self _ _, pathsLookup_addEndpoint_other _ _ _ _ h2⟩

/-- Claim C3 witness: two endpoints at path "/x" whose methods agree up to
case ("GET" then "get"); the stored operation is the second endpoint's, and
an untouched key pair is preserved. -/
theorem spec_paths_merge_policy_witness :
    pathsLookup (generateOpenAPISpec dupMethodBackend).paths
        (normalizePath "/x") (jsToLowerCase "get")
        = some (mkOperation dupMethodEndpointB)
    ∧ pathsLookup (generateOpenAPISpec dupMethodBackend).paths "/x" "post"
        = pathsLookup (genPaths [dupMethodEndpointA]) "/x" "post" :=
  spec_paths_merge_policy dupMethodBackend [dupMethodEndpointA]
    dupMethodEndpointB "/x" "post" rfl (by decide)

/-- Claim C4: `generateOpenAPISpec` is total by construction in this
embedding (it returns a specification for every backend), and for a
backend with zero endpoints the resulting paths map is empty while the
remaining fields still form a valid specification. -/
theorem generateOpenAPISpec_empty_paths (b : GeneratedBackend)
    (h : b.endpoints = []) :
    (generateOpenAPISpec b).paths = []
    ∧ (generateOpenAPISpec b).openapi = "3.0.0"
    ∧ (generateOpenAPISpec b).info
        = { title := b.name, description := b.description, version := b.version } := by
  refine ⟨?_, rfl, rfl⟩
  show genPaths b.endpoints = []
  rw [h]
  rfl

/-- Claim C4 witness: the backend with zero endpoints projects to a
specification with an empty paths map. -/
theorem generateOpenAPISpec_empty_paths_witness :
    (generateOpenAPISpec emptyBackend).paths = []
    ∧ (generateOpenAPISpec emptyBackend).openapi = "3.0.0"
    ∧ (generateOpenAPISpec emptyBackend).info
        = { title := emptyBackend.name, description := emptyBackend.description,
            version := emptyBackend.version } :=
  generateOpenAPISpec_empty_paths emptyBackend rfl

/-- Claim C5: a reply that does not parse as JSON yields the malformed-
response failure; a reply that parses but lacks a top-level "name" or lacks
"workflows" as an array yields the distinct invalid-shape failure; both are
distinguishable from each other and from the no-content
service-unavailability failure. -/
theorem decode_failure_kinds (j : Json)
    (h : j.getField "name" = none ∨ jsIsArray (j.getField "workflows") = false) :
    decodeReply none
        = { success := false,
            error := some "Failed to parse OpenAI response as JSON", data := none }
    ∧ (decodeReply (some j)).success = false
    ∧ (decodeReply (some j)).error = some "Invalid data format in OpenAI response"
    ∧ (decodeReply none).error ≠ (decodeReply (some j)).error
    ∧ (decodeReply none).error ≠ noContentResult.error
    ∧ (decodeReply (some j)).error ≠ noContentResult.error := by
  have hcond : (!jsTruthy (j.getField "name") || !jsTruthy (j.getField "workflows")
      || !jsIsArray (j.getField "workflows")) = true := by
    rcases h with h1 | h2
    · simp [h1, jsTruthy]
    · simp [h2]
  refine ⟨rfl, ?_, ?_, ?_, ?_, ?_⟩ <;>
    simp [decodeReply, hcond, noContentResult]

/-- Claim C5 witness: instantiated at the reply object with no "name" key. -/
theorem decode_failure_kinds_witness :
    decodeReply none
        = { success := false,
            error := some "Failed to parse OpenAI response as JSON", data := none }
    ∧ (decodeReply (some namelessReply)).success = false
    ∧ (decodeReply (some namelessReply)).error
        = some "Invalid data format in OpenAI response"
    ∧ (decodeReply none).error ≠ (decodeReply (some namelessReply)).error
    ∧ (decodeReply none).error ≠ noContentResult.error
    ∧ (decodeReply (some namelessReply)).error ≠ noContentResult.error :=
  decode_failure_kinds namelessReply (Or.inl rfl)

/-- Claim C6: an empty-after-trimming prompt, and a missing or empty
text-generation credential, each make `parsePrompt` return a failure in its
guard phase, before the client is constructed or any request is issued. -/
theorem parsePrompt_rejects_before_network (prompt : String)
    (config : GeneratorConfig)
    (h : jsTrim prompt = "" ∨ config.openaiApiKey = none
        ∨ config.openaiApiKey = some "") :
    isEarlyFailure (parsePromptStart prompt config) = true := by
  unfold parsePromptStart
  by_cases hc : (prompt == "" || (jsTrim prompt).length == 0) = true
  · rw [if_pos hc]
    rfl
  · rw [if_neg hc]
    have hkey : (match config.openaiApiKey with
        | none => false | some k => k != "") = false := by
      rcases h with h1 | h2 | h3
      · exact absurd (by simp [h1]) hc
      · simp [h2]
      · simp [h3]
    rw [hkey]
    rfl

/-- Claim C6 witness: a non-empty prompt with a configuration that carries
no credential is rejected in the guard phase. -/
theorem parsePrompt_rejects_before_network_witness :
    isEarlyFailure (parsePromptStart "an API to list movies" keylessConfig) = true :=
  parsePrompt_rejects_before_network "an API to list movies" keylessConfig
    (Or.inr (Or.inl rfl))

/-- Claim C7: every failure raised inside `renderDocumentation` is caught
at its boundary and converted into the self-contained fallback HTML page,
which embeds the failure message; the caller always receives an HTML body. -/
theorem renderDocumentation_error_boundary (msg : String) :
    renderDocumentation (RenderAttempt.thrown (some msg))
        = errorPagePre ++ msg ++ errorPagePost
    ∧ (∃ pre post, renderDocumentation (RenderAttempt.thrown (some msg))
        = pre ++ msg ++ post)
    ∧ renderDocumentation (RenderAttempt.thrown none)
        = errorPagePre ++ "Unknown error" ++ errorPagePost :=
  ⟨rfl, ⟨errorPagePre, errorPagePost, rfl⟩, rfl⟩

/-- Claim C9: a reply object carrying only a truthy "name" and a
"workflows" array passes the shape check and is returned as successful
data unchanged, although it has no "nodes", "description", "version" or
"endpoints" keys. -/
theorem decode_accepts_minimal_shape :
    decodeReply (some minimalReply)
        = { success := true, error := none, data := some minimalReply }
    ∧ minimalReply.getField "nodes" = none
    ∧ minimalReply.getField "description" = none
    ∧ minimalReply.getField "version" = none
    ∧ minimalReply.getField "endpoints" = none :=
  ⟨rfl, rfl, rfl, rfl, rfl⟩

/-- Claim C10: `updateGeneratedBackend` installs the new backend as the
in-memory current model unconditionally; when the persistence write fails
(the error is caught and only logged) the file keeps its previous contents,
so the current model and the persisted file can diverge. -/
theorem updateGeneratedBackend_memory_first (b : GeneratedBackend)
    (s : ServerState) :
    (updateGeneratedBackend b false s).generatedBackend = some b
    ∧ (updateGeneratedBackend b false s).persistedFile = s.persistedFile
    ∧ (updateGeneratedBackend b true s).generatedBackend = some b
    ∧ (updateGeneratedBackend b true s).persistedFile = some b :=
  ⟨rfl, rfl, rfl, rfl⟩

/-- Claim C8 (amended): when an endpoint supplies no responses (absent or
empty), the operation's responses map is exactly the default single "200"
entry; when it supplies responses, every supplied status code occurs as a
key, every key of the map comes from some supplied response (so no default
is added), and when the supplied status codes are pairwise distinct every
supplied response appears keyed by its status code; with duplicate status
codes the later response overwrites the earlier one. -/
theorem operation_responses_policy (e e0 : GeneratedEndpoint)
    (rs : List EndpointResponse) (r : EndpointResponse)
    (kv : String × ResponseObj)
    (hrs : e.responses = some rs) (hne : rs ≠ []) (hr : r ∈ rs)
    (h0 : e0.responses = none ∨ e0.responses = some [])
    (hkv : kv ∈ (mkOperation e).responses) :
    (mkOperation e0).responses
        = [("200", { description := "Successful operation", content := none })]
    ∧ (List.lookup (toString r.status) (mkOperation e).responses).isSome = true
    ∧ ((rs.map (fun x => toString x.status)).Nodup →
        (toString r.status, convertResponse r) ∈ (mkOperation e).responses)
    ∧ kv.1 ∈ rs.map (fun x => toString x.status) := by
  have he : (mkOperation e).responses
      = alistFold (fun x => toString x.status) convertResponse [] rs := by
    rw [mkOperation_responses_eq, mkResponses_some e rs hrs hne]
  refine ⟨?_, ?_, ?_, ?_⟩
  · rcases h0 with h | h <;> simp [mkOperation_responses_eq, mkResponses, h]
  · rw [he]
    exact lookup_isSome_alistFold_mem (fun x => toString x.status)
      convertResponse rs [] r hr
  · intro hnd
    rw [he]
    exact mem_alistFold_of_nodup (fun x => toString x.status)
      convertResponse rs [] r hr hnd
  · rw [he] at hkv
    obtain ⟨k, v⟩ := kv
    rcases mem_alistFold_elim (fun x => toString x.status)
        convertResponse rs [] k v hkv with hmem | hmem
    · cases hmem
    · exact hmem

/-- Claim C8 counterexample: an endpoint supplying two responses with the
same status code 200 and different descriptions; the operation's responses
map holds only the second response, so the first supplied response does not
appear keyed by its status code, refuting the claim as stated. -/
theorem operation_responses_dup_counterexample :
    (mkOperation dupStatusEndpoint).responses
        = [("200", { description := "second", content := none })]
    ∧ ("200", ({ description := "first", content := none } : ResponseObj))
        ∉ (mkOperation dupStatusEndpoint).responses := by
  have h1 : (mkOperation dupStatusEndpoint).responses
      = [("200", { description := "second", content := none })] := rfl
  refine ⟨h1, ?_⟩
  rw [h1]
  intro hmem
  simp [Prod.ext_iff] at hmem

/-- Claim C8 witness: instantiated at an endpoint with distinct statuses
200 and 404 and an endpoint with no responses. -/
theorem operation_responses_policy_witness :
    (mkOperation noResponsesEndpoint).responses
        = [("200", { description := "Successful operation", content := none })]
    ∧ (List.lookup (toString (200 : Nat))
        (mkOperation twoStatusEndpoint).responses).isSome = true
    ∧ (([{ status := 200, description := "ok", schema := none },
         { status := 404, description := "missing", schema := none }].map
            (fun (x : EndpointResponse) => toString x.status)).Nodup →
        (toString (200 : Nat),
            convertResponse { status := 200, description := "ok", schema := none })
          ∈ (mkOperation twoStatusEndpoint).responses)
    ∧ ("200" : String) ∈
        ([{ status := 200, description := "ok", schema := none },
          { status := 404, description := "missing", schema := none }].map
            (fun (x : EndpointResponse) => toString x.status)) :=
  operation_responses_policy twoStatusEndpoint noResponsesEndpoint
    [{ status := 200, description := "ok", schema := none },
     { status := 404, description := "missing", schema := none }]
    { status := 200, description := "ok", schema := none }
    ("200", { description := "ok", content := none })
    rfl (by simp) (List.mem_cons_self _ _) (Or.inl rfl)
    (List.mem_cons_self _ _)

/-- Claim C1 counterexample: the endpoint path "/apis" starts with the
characters "/api" but not with an "/api" segment; segment-based
normalization leaves it as "/apis", yet the projected specification has no
key "/apis" and instead stores the endpoint under "/s", refuting the claim
as stated. -/
theorem spec_path_key_not_segment_counterexample :
    specNormalizePath "/apis" = "/apis"
    ∧ normalizePath "/apis" = "/s"
    ∧ List.lookup "/apis" (generateOpenAPISpec apisBackend).paths = none
    ∧ (List.lookup "/s" (generateOpenAPISpec apisBackend).paths).isSome = true :=
  ⟨by decide, by decide, rfl, rfl⟩

/-- Claim C1 (amended): each endpoint is keyed under its path normalized by
dropping the four-character prefix "/api" whenever the path starts with
those characters, whether or not they form a whole segment, then ensuring a
leading "/"; in particular "/api/tasks" yields key "/tasks", "tasks" yields
"/tasks", and "/apis" yields "/s". -/
theorem spec_path_key_prefix_normalized (b : GeneratedBackend)
    (e : GeneratedEndpoint) (h : e ∈ b.endpoints) :
    (List.lookup (normalizePath e.path) (generateOpenAPISpec b).paths).isSome = true
    ∧ normalizePath "/api/tasks" = "/tasks"
    ∧ normalizePath "tasks" = "/tasks"
    ∧ normalizePath "/apis" = "/s" := by
  refine ⟨?_, by decide, by decide, by decide⟩
  show (List.lookup (normalizePath e.path) (genPaths b.endpoints)).isSome = true
  exact genPaths_key_present b.endpoints e h

/-- Claim C1 witness: instantiated at the backend holding the "/apis"
endpoint. -/
theorem spec_path_key_prefix_normalized_witness :
    (List.lookup (normalizePath apisEndpoint.path)
        (generateOpenAPISpec apisBackend).paths).isSome = true
    ∧ normalizePath "/api/tasks" = "/tasks"
    ∧ normalizePath "tasks" = "/tasks"
    ∧ normalizePath "/apis" = "/s" :=
  spec_path_key_prefix_normalized apisBackend apisEndpoint
    (List.mem_cons_self _ _)
